import Mathlib

/-!
Shallow embedding of the clack host/common crates (prokopyl/rust-clap):
the typed MIDI event model (`src/common/src/events/event_types/midi.rs`),
the audio-processor lifecycle state machine (`src/host/src/process.rs`),
the state extension host side (`src/extensions/src/state/host.rs`),
and the example host's timer collection (`src/host/examples/cpal/src/host.rs`).

Machine integers are modelled as `Nat` (byte values, u16 port indices,
u32 intervals); pointers are modelled as `Nat` addresses; raw C function
pointers are modelled as `Option` of a Lean function (with `none` for a
null pointer).
-/

/- ===================== Event model ===================== -/

/-- Raw `clap_event_header` record: `{size: u32, time: u32, space_id: u16,
type_id: u16, flags: u32}` (layout order per the ABI). -/
structure ClapEventHeader where
  size : Nat
  time : Nat
  space_id : Nat
  type_id : Nat
  flags : Nat
deriving DecidableEq, Repr

/-- ABI constant: the core CLAP event space id. -/
def CLAP_CORE_EVENT_SPACE_ID : Nat := 0

/-- ABI constant referenced by `unsafe impl Event for MidiEvent`. -/
def CLAP_EVENT_MIDI : Nat := 10

/-- ABI constant referenced by `unsafe impl Event for MidiSysExEvent`. -/
def CLAP_EVENT_MIDI_SYSEX : Nat := 11

/-- ABI constant referenced by `unsafe impl Event for Midi2Event`. -/
def CLAP_EVENT_MIDI2 : Nat := 12

/-- `MidiEvent` wraps `clap_event_midi`: header, `port_index: u16`,
`data: [u8; 3]`. -/
structure MidiEvent where
  header : ClapEventHeader
  port_index : Nat
  data : Nat × Nat × Nat
deriving DecidableEq, Repr

/-- `Midi2Event` wraps `clap_event_midi2`: header, `port_index: u16`,
`data: [u32; 4]`. -/
structure Midi2Event where
  header : ClapEventHeader
  port_index : Nat
  data : Nat × Nat × Nat × Nat
deriving DecidableEq, Repr

/-- `MidiSysExEvent` wraps `clap_event_midi_sysex`: header,
`port_index: u16`, a borrowed `buffer: *const u8` (modelled as a `Nat`
address) and `size: u32`. -/
structure MidiSysExEvent where
  header : ClapEventHeader
  port_index : Nat
  buffer : Nat
  size : Nat
deriving DecidableEq, Repr

/-- `MidiEvent::new(header, port_index, data)`: the `EventHeader<Self>`
argument fixes `type_id`/`space_id` to the type's declared capability;
`size`, `time` and `flags` are caller-supplied. -/
def MidiEvent.new (sz time flags port_index : Nat) (data : Nat × Nat × Nat) :
    MidiEvent :=
  ⟨⟨sz, time, CLAP_CORE_EVENT_SPACE_ID, CLAP_EVENT_MIDI, flags⟩, port_index, data⟩

/-- `Midi2Event` built from a raw record whose header carries the type's
declared capability pair. -/
def Midi2Event.new (sz time flags port_index : Nat)
    (data : Nat × Nat × Nat × Nat) : Midi2Event :=
  ⟨⟨sz, time, CLAP_CORE_EVENT_SPACE_ID, CLAP_EVENT_MIDI2, flags⟩, port_index, data⟩

/-- `MidiSysExEvent::new(header, port_index, buffer)`: stores the borrowed
buffer as a pointer + length pair. -/
def MidiSysExEvent.new (sz time flags port_index buffer bufLen : Nat) :
    MidiSysExEvent :=
  ⟨⟨sz, time, CLAP_CORE_EVENT_SPACE_ID, CLAP_EVENT_MIDI_SYSEX, flags⟩,
    port_index, buffer, bufLen⟩

/-- The tagged payload part of a type-erased event record (everything past
the header), one variant per concrete event type modelled here. -/
inductive EventPayload where
  | midi (port_index : Nat) (data : Nat × Nat × Nat)
  | midi2 (port_index : Nat) (data : Nat × Nat × Nat × Nat)
  | midiSysEx (port_index : Nat) (buffer : Nat) (size : Nat)
deriving DecidableEq, Repr

/-- Modelled from the spec: `UnknownEvent` (in `src/common/src/events`, not
under src/) is "the type-erased common representation: any concrete event
can be viewed as an UnknownEvent". It is a header plus the raw payload
bytes, modelled here as a tagged payload. -/
structure UnknownEvent where
  header : ClapEventHeader
  payload : EventPayload
deriving DecidableEq, Repr

/-- `MidiEvent::as_unknown()`: infallible widening, preserving header and
payload verbatim. -/
def MidiEvent.as_unknown (e : MidiEvent) : UnknownEvent :=
  ⟨e.header, .midi e.port_index e.data⟩

/-- `Midi2Event::as_unknown()`. -/
def Midi2Event.as_unknown (e : Midi2Event) : UnknownEvent :=
  ⟨e.header, .midi2 e.port_index e.data⟩

/-- `MidiSysExEvent::as_unknown()`. -/
def MidiSysExEvent.as_unknown (e : MidiSysExEvent) : UnknownEvent :=
  ⟨e.header, .midiSysEx e.port_index e.buffer e.size⟩

/-- Modelled from the spec: the checked downcast of an `UnknownEvent` to
`MidiEvent` (the downcast machinery lives in `src/common/src/events`, not
under src/): it "compares the stored type_id/space_id against the target's
declared capability and fails (returns nothing) on mismatch — never a
blind reinterpretation". -/
def UnknownEvent.downcast_midi (u : UnknownEvent) : Option MidiEvent :=
  if u.header.space_id = CLAP_CORE_EVENT_SPACE_ID ∧
      u.header.type_id = CLAP_EVENT_MIDI then
    match u.payload with
    | .midi p d => some ⟨u.header, p, d⟩
    | _ => none
  else none

/-- Modelled from the spec: checked downcast to `Midi2Event`. -/
def UnknownEvent.downcast_midi2 (u : UnknownEvent) : Option Midi2Event :=
  if u.header.space_id = CLAP_CORE_EVENT_SPACE_ID ∧
      u.header.type_id = CLAP_EVENT_MIDI2 then
    match u.payload with
    | .midi2 p d => some ⟨u.header, p, d⟩
    | _ => none
  else none

/-- Modelled from the spec: checked downcast to `MidiSysExEvent`. -/
def UnknownEvent.downcast_midi_sysex (u : UnknownEvent) :
    Option MidiSysExEvent :=
  if u.header.space_id = CLAP_CORE_EVENT_SPACE_ID ∧
      u.header.type_id = CLAP_EVENT_MIDI_SYSEX then
    match u.payload with
    | .midiSysEx p b s => some ⟨u.header, p, b, s⟩
    | _ => none
  else none

/-- `impl PartialEq for MidiEvent`: compares only `data` and `port_index`. -/
def MidiEvent.rust_eq (a b : MidiEvent) : Bool :=
  decide (a.data = b.data) && decide (a.port_index = b.port_index)

/-- `impl PartialEq for Midi2Event`: compares only `data` and `port_index`. -/
def Midi2Event.rust_eq (a b : Midi2Event) : Bool :=
  decide (a.data = b.data) && decide (a.port_index = b.port_index)

/-- `impl PartialEq for MidiSysExEvent`: compares `port_index`, then
`buffer_size()`, then `buffer_ptr()` — the pointer value, not the bytes
behind it. -/
def MidiSysExEvent.rust_eq (a b : MidiSysExEvent) : Bool :=
  decide (a.port_index = b.port_index) && decide (a.size = b.size) &&
    decide (a.buffer = b.buffer)

/-- The data bytes a sysex event denotes, given the process memory `mem`
(address → byte): the `size` bytes starting at the `buffer` address. -/
def MidiSysExEvent.data_bytes (mem : Nat → Nat) (e : MidiSysExEvent) :
    List Nat :=
  (List.range e.size).map (fun i => mem (e.buffer + i))

/- ===================== Audio processor lifecycle ===================== -/

/-- `HostError` variants used by `src/host/src/process.rs`. -/
inductive HostError where
  | ProcessingStopped
  | ProcessingStarted
  | ProcessorHandlePoisoned
  | StartProcessingFailed
  | NullProcessFunction
  | ProcessingFailed
deriving DecidableEq, Repr

/-- `ProcessStatus` as returned by a successful process call. -/
inductive ProcessStatus where
  | Continue
  | ContinueIfNotQuiet
  | Tail
  | Sleep
deriving DecidableEq, Repr

/-- Modelled from the spec: `ProcessStatus::from_raw` (in
`clack_common::process`, not under src/) decodes the raw
`clap_process_status` value: the ABI error value (0) decodes to a failure,
the four success statuses decode to `ProcessStatus`, and any other value
is invalid (`none`). -/
def ProcessStatus.from_raw : Int → Option (Except Unit ProcessStatus)
  | 0 => some (.error ())
  | 1 => some (.ok .Continue)
  | 2 => some (.ok .ContinueIfNotQuiet)
  | 3 => some (.ok .Tail)
  | 4 => some (.ok .Sleep)
  | _ => none

/-- The fields of the raw `clap_process` record built by `process`
(`clap_sys::process::clap_process`): steady time (i64), frame count and
the buffer-array counts (u32 fields, modelled as `Nat` with the source's
truncating `as u32` cast applied at the write site), and whether a
transport pointer is present (vs. null). The pointer-valued fields carry
no arithmetic content and are omitted. -/
structure ClapProcess where
  steady_time : Int
  frames_count : Nat
  has_transport : Bool
  audio_inputs_count : Nat
  audio_outputs_count : Nat
deriving DecidableEq, Repr

/-- The reference-counted `PluginInstanceInner` behind every processor
handle, abstracted as an oracle for the two FFI calls the lifecycle makes:
`shared` and `audio_processor_data` stand for the host data partitions
reachable through `wrapper()`, `start_ok` is the outcome of
`inner.start_processing()`, and `process_fn` is the instance's raw
`process` entry point (`none` when the function pointer is null). -/
structure PluginInstance where
  shared : Nat
  audio_processor_data : Nat
  start_ok : Bool
  process_fn : Option (ClapProcess → Int)

/-- `StartedPluginAudioProcessor`: owns the instance (the `Option` dance
of the Rust field only serves the `Drop` impl and is elided). -/
structure StartedPluginAudioProcessor where
  inner : PluginInstance

/-- `StoppedPluginAudioProcessor`. -/
structure StoppedPluginAudioProcessor where
  inner : PluginInstance

/-- `ProcessingStartError`: carries the stopped processor back to the
caller on failure. -/
structure ProcessingStartError where
  processor : StoppedPluginAudioProcessor

/-- `StoppedPluginAudioProcessor::start_processing`: consumes `self`; on
success of `inner.start_processing()` the same instance is wrapped in a
`Started` handle, on failure the error returns the original handle. -/
def StoppedPluginAudioProcessor.start_processing
    (s : StoppedPluginAudioProcessor) :
    Except ProcessingStartError StartedPluginAudioProcessor :=
  if s.inner.start_ok then .ok ⟨s.inner⟩ else .error ⟨s⟩

/-- `StartedPluginAudioProcessor::stop_processing`: consumes `self`,
always returns a `Stopped` handle over the same instance. -/
def StartedPluginAudioProcessor.stop_processing
    (s : StartedPluginAudioProcessor) : StoppedPluginAudioProcessor :=
  ⟨s.inner⟩

/-- Modelled from the spec: `min_channel_buffer_length` of the
`audio_buffers` module (not under src/) is the "min-over-channels length"
of a buffer set; a port set is a list of ports, each a list of per-channel
buffer lengths. -/
def min_channel_buffer_length (ports : List (List Nat)) : Nat :=
  match ports.flatten with
  | [] => 0
  | x :: xs => xs.foldl Nat.min x

/-- `StartedPluginAudioProcessor::process`: computes the effective frame
count (a `usize`) from the smallest input/output channel lengths capped by
`max_frame_count`, builds the raw `clap_process` record — whose u32 fields
are filled through truncating `as u32` casts, modelled as `% 2 ^ 32` —
and invokes the instance's raw process entry point, decoding its status.
Mirrors the `&mut self` receiver by returning the (unmodified) handle
alongside the built record and the result. -/
def StartedPluginAudioProcessor.process
    (self : StartedPluginAudioProcessor)
    (audio_inputs audio_outputs : List (List Nat))
    (steady_time : Int) (max_frame_count : Option Nat)
    (has_transport : Bool) :
    StartedPluginAudioProcessor × ClapProcess × Except HostError ProcessStatus :=
  let min_input_sample_count := min_channel_buffer_length audio_inputs
  let min_output_sample_count := min_channel_buffer_length audio_outputs
  let frames_count₀ := Nat.min min_input_sample_count min_output_sample_count
  let frames_count := match max_frame_count with
    | some m => Nat.min frames_count₀ m
    | none => frames_count₀
  let record : ClapProcess :=
    { steady_time := steady_time
      frames_count := frames_count % 2 ^ 32
      has_transport := has_transport
      audio_inputs_count := audio_inputs.length % 2 ^ 32
      audio_outputs_count := audio_outputs.length % 2 ^ 32 }
  match self.inner.process_fn with
  | none => (self, record, .error HostError.NullProcessFunction)
  | some f =>
    match ProcessStatus.from_raw (f record) with
    | none => (self, record, .error HostError.ProcessingFailed)
    | some (.error _) => (self, record, .error HostError.ProcessingFailed)
    | some (.ok st) => (self, record, .ok st)

/-- The raw status decode failed (invalid value or the ABI error value):
the `.ok_or(()).and_then(|r| r)` chain in `process`. -/
def raw_status_failed : Option (Except Unit ProcessStatus) → Bool
  | none => true
  | some (.error _) => true
  | some (.ok _) => false

/-- The `PluginAudioProcessor` enum: `Started`, `Stopped`, or `Poisoned`. -/
inductive PluginAudioProcessor where
  | Started (s : StartedPluginAudioProcessor)
  | Stopped (s : StoppedPluginAudioProcessor)
  | Poisoned

/-- `PluginAudioProcessor::as_started` (and `as_started_mut`): returns the
started handle or the state-describing error. -/
def PluginAudioProcessor.as_started :
    PluginAudioProcessor → Except HostError StartedPluginAudioProcessor
  | .Started s => .ok s
  | .Stopped _ => .error .ProcessingStopped
  | .Poisoned => .error .ProcessorHandlePoisoned

/-- `PluginAudioProcessor::as_stopped` (and `as_stopped_mut`). -/
def PluginAudioProcessor.as_stopped :
    PluginAudioProcessor → Except HostError StoppedPluginAudioProcessor
  | .Stopped s => .ok s
  | .Started _ => .error .ProcessingStarted
  | .Poisoned => .error .ProcessorHandlePoisoned

/-- Outcome of a Rust method that either returns a value or panics. -/
inductive PanicOr (α : Type) where
  | panicked
  | ret (a : α)
deriving DecidableEq, Repr

/-- Whether a `PanicOr` outcome is a panic. -/
def PanicOr.isPanic {α : Type} : PanicOr α → Bool
  | .panicked => true
  | .ret _ => false

/-- `StartedPluginAudioProcessor::shared_host_data`. -/
def StartedPluginAudioProcessor.shared_host_data
    (s : StartedPluginAudioProcessor) : Nat :=
  s.inner.shared

/-- `StoppedPluginAudioProcessor::shared_host_data`. -/
def StoppedPluginAudioProcessor.shared_host_data
    (s : StoppedPluginAudioProcessor) : Nat :=
  s.inner.shared

/-- `StartedPluginAudioProcessor::audio_processor_host_data` (the `_mut`
variant reaches the same data). -/
def StartedPluginAudioProcessor.audio_processor_host_data
    (s : StartedPluginAudioProcessor) : Nat :=
  s.inner.audio_processor_data

/-- `StoppedPluginAudioProcessor::audio_processor_host_data` (the `_mut`
variant reaches the same data). -/
def StoppedPluginAudioProcessor.audio_processor_host_data
    (s : StoppedPluginAudioProcessor) : Nat :=
  s.inner.audio_processor_data

/-- `PluginAudioProcessor::shared_host_data`: delegates in the two live
states and executes `panic!("Plugin audio processor was poisoned")` on a
poisoned handle. -/
def PluginAudioProcessor.shared_host_data :
    PluginAudioProcessor → PanicOr Nat
  | .Poisoned => .panicked
  | .Started s => .ret s.shared_host_data
  | .Stopped s => .ret s.shared_host_data

/-- `PluginAudioProcessor::audio_processor_host_data`: panics on a
poisoned handle. -/
def PluginAudioProcessor.audio_processor_host_data :
    PluginAudioProcessor → PanicOr Nat
  | .Poisoned => .panicked
  | .Started s => .ret s.audio_processor_host_data
  | .Stopped s => .ret s.audio_processor_host_data

/-- `PluginAudioProcessor::audio_processor_host_data_mut`: panics on a
poisoned handle; reaches the same data as the shared-reference variant. -/
def PluginAudioProcessor.audio_processor_host_data_mut :
    PluginAudioProcessor → PanicOr Nat
  | .Poisoned => .panicked
  | .Started s => .ret s.audio_processor_host_data
  | .Stopped s => .ret s.audio_processor_host_data

/-- `PluginAudioProcessor::start_processing` (`&mut self`, modelled as
state in, state + result out): poisoned and already-started handles error
without a transition; a stopped handle delegates to the concrete
transition, restoring the returned stopped handle on failure. -/
def PluginAudioProcessor.start_processing :
    PluginAudioProcessor → PluginAudioProcessor × Except HostError Unit
  | .Poisoned => (.Poisoned, .error .ProcessorHandlePoisoned)
  | .Started s => (.Started s, .error .ProcessingStarted)
  | .Stopped s =>
    match s.start_processing with
    | .ok st => (.Started st, .ok ())
    | .error e => (.Stopped e.processor, .error .StartProcessingFailed)

/-- `PluginAudioProcessor::stop_processing`. -/
def PluginAudioProcessor.stop_processing :
    PluginAudioProcessor → PluginAudioProcessor × Except HostError Unit
  | .Poisoned => (.Poisoned, .error .ProcessorHandlePoisoned)
  | .Stopped s => (.Stopped s, .error .ProcessingStopped)
  | .Started s => (.Stopped s.stop_processing, .ok ())

/-- `PluginAudioProcessor::ensure_processing_started`: a started handle is
returned as-is; otherwise delegates to `start_processing`. -/
def PluginAudioProcessor.ensure_processing_started :
    PluginAudioProcessor → PluginAudioProcessor × Except HostError Unit
  | .Started s => (.Started s, .ok ())
  | p => p.start_processing

/-- `PluginAudioProcessor::ensure_processing_stopped`. -/
def PluginAudioProcessor.ensure_processing_stopped :
    PluginAudioProcessor → PluginAudioProcessor × Except HostError Unit
  | .Stopped s => (.Stopped s, .ok ())
  | p => p.stop_processing

/- ===================== State extension (host side) ===================== -/

/-- `StateError { saving: bool }` as constructed in
`src/extensions/src/state/host.rs`. -/
structure StateError where
  saving : Bool
deriving DecidableEq, Repr

/-- The raw `clap_plugin_state` vtable held by `PluginState`: nullable
`load` and `save` function pointers taking the raw plugin handle and a
stream (both modelled as opaque `Nat` handles) and returning a `bool`. -/
structure PluginState where
  load_fn : Option (Nat → Nat → Bool)
  save_fn : Option (Nat → Nat → Bool)

/-- `PluginState::load`: a null `load` pointer errors with
`StateError { saving: false }`; otherwise the function is called and a
`false` return errors likewise, a `true` return yields `Ok(())`. -/
def PluginState.load (s : PluginState) (plugin stream : Nat) :
    Except StateError Unit :=
  match s.load_fn with
  | none => .error ⟨false⟩
  | some f => if f plugin stream then .ok () else .error ⟨false⟩

/-- `PluginState::save`: dual of `load`, with `saving: true` in the
errors. -/
def PluginState.save (s : PluginState) (plugin stream : Nat) :
    Except StateError Unit :=
  match s.save_fn with
  | none => .error ⟨true⟩
  | some f => if f plugin stream then .ok () else .error ⟨true⟩

/- ===================== Example host timers ===================== -/

/-- `Timer` of the cpal example host: `id`, `interval` (milliseconds) and
`last_updated_at` (an `Instant`, modelled as milliseconds of virtual
time). -/
structure Timer where
  id : Nat
  interval : Nat
  last_updated_at : Option Nat
deriving DecidableEq, Repr

/-- `Timer::new`. -/
def Timer.new (id interval : Nat) : Timer :=
  ⟨id, interval, none⟩

/-- `Timer::tick(now)`: triggers on the very first tick, and afterwards
when strictly more than `interval` ms elapsed since the previous tick
(`checked_duration_since` yields nothing when `now` is before the stored
instant); the stored instant is updated to `now` on every tick, whether
or not the timer triggered. -/
def Timer.tick (t : Timer) (now : Nat) : Bool × Timer :=
  let triggered := match t.last_updated_at with
    | some last => if last ≤ now then t.interval < now - last else false
    | none => true
  (triggered, { t with last_updated_at := some now })

/-- `Timers` of the cpal example host: the id counter, the cached
`smallest_duration` (in ms), and the registered timers (the `HashMap` is
modelled as a list; `tick_all` treats each timer independently, so map
iteration order is immaterial). -/
structure Timers where
  latest_id : Nat
  smallest_duration : Option Nat
  timers : List Timer
deriving DecidableEq, Repr

/-- `Timers::new`. -/
def Timers.new : Timers :=
  ⟨0, none, []⟩

/-- `Timers::register_new(interval)`: allocates the next id, inserts a
fresh timer, and lowers the cached `smallest_duration` when the new
interval is strictly smaller. -/
def Timers.register_new (ts : Timers) (interval : Nat) : Nat × Timers :=
  let id := ts.latest_id + 1
  let smallest := match ts.smallest_duration with
    | none => some interval
    | some s => if interval < s then some interval else some s
  (id, { latest_id := id
         smallest_duration := smallest
         timers := ts.timers ++ [Timer.new id interval] })

/-- `Timers::tick_all()`: ticks every registered timer at `now` and
returns the ids of those that triggered; `smallest_duration` is not
touched. -/
def Timers.tick_all (ts : Timers) (now : Nat) : List Nat × Timers :=
  let ticked := ts.timers.map (fun t => t.tick now)
  (ticked.filterMap (fun p => if p.1 then some p.2.id else none),
    { ts with timers := ticked.map Prod.snd })

/-- Folding `tick_all` over a schedule of tick instants, collecting every
id that triggered at any tick (the caller's tick loop). -/
def Timers.run_ticks (ts : Timers) (schedule : List Nat) :
    List Nat × Timers :=
  match schedule with
  | [] => ([], ts)
  | now :: rest =>
    let (fired, ts₁) := ts.tick_all now
    let (firedRest, ts₂) := ts₁.run_ticks rest
    (fired ++ firedRest, ts₂)

/- ===================== Helper lemmas ===================== -/

/-- A `process` call returns the handle untouched and builds the raw
record from the arguments alone: `frames_count` is the min of the channel
minima, capped by `max_frame_count` when supplied, truncated by the
`as u32` cast. -/
lemma process_handle_and_record (self : StartedPluginAudioProcessor)
    (ins outs : List (List Nat)) (st : Int) (cap : Option Nat) (tr : Bool) :
    (self.process ins outs st cap tr).1 = self ∧
    (self.process ins outs st cap tr).2.1 =
      ⟨st,
        (match cap with
         | some m =>
           Nat.min (Nat.min (min_channel_buffer_length ins)
             (min_channel_buffer_length outs)) m
         | none =>
           Nat.min (min_channel_buffer_length ins)
             (min_channel_buffer_length outs)) % 2 ^ 32,
        tr, ins.length % 2 ^ 32, outs.length % 2 ^ 32⟩ := by
  constructor <;>
    (unfold StartedPluginAudioProcessor.process
     dsimp only
     split
     next => rfl
     next => split <;> rfl)

/-- `tick_all` leaves the cached `smallest_duration` untouched. -/
lemma Timers.tick_all_smallest_duration (ts : Timers) (now : Nat) :
    (ts.tick_all now).2.smallest_duration = ts.smallest_duration := rfl

/-- A whole tick loop leaves the cached `smallest_duration` untouched. -/
lemma Timers.run_ticks_smallest_duration :
    ∀ (sched : List Nat) (ts : Timers),
      (ts.run_ticks sched).2.smallest_duration = ts.smallest_duration := by
  intro sched
  induction sched with
  | nil => intro ts; rfl
  | cons now rest ih =>
    intro ts
    show ((ts.tick_all now).2.run_ticks rest).2.smallest_duration = _
    rw [ih]
    rfl

/- ===================== Claim theorems ===================== -/

/-- C1 counterexample: with one input channel and one output channel both
of length 2^32 and no caller cap, the minimum of the channel minima is
2^32, but the `frames_count as u32` cast writes 2^32 mod 2^32 = 0 into
the raw process record — so the recorded frame count does not equal the
minimum at this input. -/
theorem frames_count_truncation_counterexample :
    min_channel_buffer_length [[4294967296]] = 4294967296 ∧
    ((StartedPluginAudioProcessor.mk ⟨0, 0, true, none⟩).process
      [[4294967296]] [[4294967296]] 0 none false).2.1.frames_count = 0 ∧
    (((StartedPluginAudioProcessor.mk ⟨0, 0, true, none⟩).process
      [[4294967296]] [[4294967296]] 0 none false).2.1.frames_count ==
      Nat.min (min_channel_buffer_length [[4294967296]])
        (min_channel_buffer_length [[4294967296]])) = false := by
  decide

/-- C1 amended: in every `StartedPluginAudioProcessor::process` call, the
`frames_count` written into the raw process record is the minimum of the
smallest input channel length, the smallest output channel length, and
`max_frame_count` when supplied, reduced mod 2^32 by the `as u32` cast
(hence equal to that minimum whenever it fits in u32); with an input port
of 32 frames, an output port of 64 frames and `max_frame_count = 16`, it
is 16. -/
theorem frames_count_is_truncated_min_of_inputs_outputs_and_cap :
    (∀ (self : StartedPluginAudioProcessor) (ins outs : List (List Nat))
        (st : Int) (cap : Nat) (tr : Bool),
      (self.process ins outs st (some cap) tr).2.1.frames_count =
        Nat.min (Nat.min (min_channel_buffer_length ins)
          (min_channel_buffer_length outs)) cap % 2 ^ 32) ∧
    (∀ (self : StartedPluginAudioProcessor) (ins outs : List (List Nat))
        (st : Int) (tr : Bool),
      (self.process ins outs st none tr).2.1.frames_count =
        Nat.min (min_channel_buffer_length ins)
          (min_channel_buffer_length outs) % 2 ^ 32) ∧
    ((StartedPluginAudioProcessor.mk ⟨0, 0, true, none⟩).process
      [[32]] [[64]] 0 (some 16) false).2.1.frames_count = 16 := by
  refine ⟨fun self ins outs st cap tr => ?_,
    fun self ins outs st tr => ?_, by decide⟩
  · rw [(process_handle_and_record self ins outs st (some cap) tr).2]
  · rw [(process_handle_and_record self ins outs st none tr).2]

/-- C2: each concrete MIDI event type declares a distinct
`(TYPE_ID, event-space)` capability; widening a freshly constructed event
to an `UnknownEvent` and downcasting back to the same type recovers the
original value, while downcasting to either other concrete type returns
`none` (the downcast checks the stored ids, never blindly
reinterprets). -/
theorem midi_event_downcast_roundtrip :
    ∀ (sz time flags port b bl : Nat) (d3 : Nat × Nat × Nat)
      (d4 : Nat × Nat × Nat × Nat),
      (MidiEvent.new sz time flags port d3).as_unknown.downcast_midi =
          some (MidiEvent.new sz time flags port d3) ∧
      (MidiEvent.new sz time flags port d3).as_unknown.downcast_midi2 =
          none ∧
      (MidiEvent.new sz time flags port d3).as_unknown.downcast_midi_sysex =
          none ∧
      (Midi2Event.new sz time flags port d4).as_unknown.downcast_midi2 =
          some (Midi2Event.new sz time flags port d4) ∧
      (Midi2Event.new sz time flags port d4).as_unknown.downcast_midi =
          none ∧
      (Midi2Event.new sz time flags port d4).as_unknown.downcast_midi_sysex =
          none ∧
      (MidiSysExEvent.new sz time flags port b bl).as_unknown.downcast_midi_sysex =
          some (MidiSysExEvent.new sz time flags port b bl) ∧
      (MidiSysExEvent.new sz time flags port b bl).as_unknown.downcast_midi =
          none ∧
      (MidiSysExEvent.new sz time flags port b bl).as_unknown.downcast_midi2 =
          none := by
  intro sz time flags port b bl d3 d4
  exact ⟨rfl, rfl, rfl, rfl, rfl, rfl, rfl, rfl, rfl⟩

/-- C3: `StoppedPluginAudioProcessor::start_processing` either yields a
`Started` handle over the same instance, or returns the original stopped
handle inside the error; at the enum level a failed start restores the
`Stopped` state with a `StartProcessingFailed` error and never leaves the
handle `Poisoned`. -/
theorem start_processing_failure_preserves_stopped_state :
    ∀ s : StoppedPluginAudioProcessor,
      (match s.start_processing with
       | .ok st => st.inner = s.inner
       | .error e => e.processor = s) ∧
      (match (PluginAudioProcessor.Stopped s).start_processing with
       | (p, .ok _) => p = .Started ⟨s.inner⟩
       | (p, .error e) => p = .Stopped s ∧ e = .StartProcessingFailed) := by
  intro s
  cases hb : s.inner.start_ok <;>
    simp [StoppedPluginAudioProcessor.start_processing,
      PluginAudioProcessor.start_processing, hb]

/-- C4 counterexample: on a `Poisoned` handle the read-only accessors
`shared_host_data`, `audio_processor_host_data` and
`audio_processor_host_data_mut` do not return the dedicated poisoned
error — their signatures have no error path at all, and the poisoned
branch executes `panic!`. -/
theorem poisoned_accessor_panics_counterexample :
    (PluginAudioProcessor.Poisoned.shared_host_data).isPanic = true ∧
    (PluginAudioProcessor.Poisoned.audio_processor_host_data).isPanic = true ∧
    (PluginAudioProcessor.Poisoned.audio_processor_host_data_mut).isPanic
      = true :=
  ⟨rfl, rfl, rfl⟩

/-- C4 amended: on a `Poisoned` handle every fallible method
(`as_started`, `as_stopped`, `start_processing`, `stop_processing` and
both `ensure_*` helpers) fails fast with the dedicated
`ProcessorHandlePoisoned` error and leaves the handle `Poisoned`, while
the infallible accessors `shared_host_data`,
`audio_processor_host_data` and `audio_processor_host_data_mut` panic
instead of returning. -/
theorem poisoned_handle_fails_fast_amended :
    PluginAudioProcessor.Poisoned.as_started =
        .error HostError.ProcessorHandlePoisoned ∧
    PluginAudioProcessor.Poisoned.as_stopped =
        .error HostError.ProcessorHandlePoisoned ∧
    PluginAudioProcessor.Poisoned.start_processing =
        (.Poisoned, .error HostError.ProcessorHandlePoisoned) ∧
    PluginAudioProcessor.Poisoned.stop_processing =
        (.Poisoned, .error HostError.ProcessorHandlePoisoned) ∧
    PluginAudioProcessor.Poisoned.ensure_processing_started =
        (.Poisoned, .error HostError.ProcessorHandlePoisoned) ∧
    PluginAudioProcessor.Poisoned.ensure_processing_stopped =
        (.Poisoned, .error HostError.ProcessorHandlePoisoned) ∧
    PluginAudioProcessor.Poisoned.shared_host_data = .panicked ∧
    PluginAudioProcessor.Poisoned.audio_processor_host_data = .panicked ∧
    PluginAudioProcessor.Poisoned.audio_processor_host_data_mut = .panicked :=
  ⟨rfl, rfl, rfl, rfl, rfl, rfl, rfl, rfl, rfl⟩

/-- C5: a `process` call returns the handle unchanged (so the caller may
process again on the same `Started` handle); it fails with
`NullProcessFunction` exactly when the raw process entry point is null,
and with `ProcessingFailed` exactly when the entry point is present but
its raw status decodes to a failure. -/
theorem process_error_taxonomy_keeps_handle_started :
    ∀ (self : StartedPluginAudioProcessor) (ins outs : List (List Nat))
      (st : Int) (cap : Option Nat) (tr : Bool),
      (self.process ins outs st cap tr).1 = self ∧
      ((self.process ins outs st cap tr).2.2 =
          Except.error HostError.NullProcessFunction ↔
        self.inner.process_fn = none) ∧
      ((self.process ins outs st cap tr).2.2 =
          Except.error HostError.ProcessingFailed ↔
        ∃ f, self.inner.process_fn = some f ∧
          raw_status_failed
            (ProcessStatus.from_raw
              (f (self.process ins outs st cap tr).2.1)) = true) := by
  intro self ins outs st cap tr
  refine ⟨((process_handle_and_record self ins outs st cap tr)).1, ?_, ?_⟩
  · unfold StartedPluginAudioProcessor.process
    dsimp only
    split
    next h => simp [h]
    next f h => split <;> simp [h]
  · unfold StartedPluginAudioProcessor.process
    dsimp only
    split
    next h => simp [h]
    next f h =>
      split
      next hr =>
        constructor
        · intro _
          exact ⟨f, h, by rw [hr]; rfl⟩
        · intro _
          rfl
      next u hr =>
        constructor
        · intro _
          exact ⟨f, h, by rw [hr]; rfl⟩
        · intro _
          rfl
      next stt hr =>
        constructor
        · intro hcontra
          exact absurd hcontra (by simp)
        · rintro ⟨g, hg, hrs⟩
          rw [h] at hg
          injection hg with hg'
          subst hg'
          rw [hr] at hrs
          exact absurd hrs (by simp [raw_status_failed])

/-- C6: `StartedPluginAudioProcessor::stop_processing` always succeeds,
consuming the started handle and returning a stopped handle over the same
instance; the enum-level `stop_processing` on a `Started` handle always
returns `Ok` with the `Stopped` state. -/
theorem stop_processing_always_succeeds :
    ∀ s : StartedPluginAudioProcessor,
      s.stop_processing = ⟨s.inner⟩ ∧
      (PluginAudioProcessor.Started s).stop_processing =
        (.Stopped ⟨s.inner⟩, .ok ()) := by
  intro s
  exact ⟨rfl, rfl⟩

/-- C9: the `ensure_*` helpers are idempotent: on a handle already in the
target state they return it unchanged with `Ok` (no plugin transition —
regardless of whether the transition could succeed), on the other
non-poisoned state they perform exactly the corresponding transition, and
running the same helper twice leaves the same state as running it once. -/
theorem ensure_processing_idempotent :
    (∀ s, PluginAudioProcessor.ensure_processing_started (.Started s) =
      (.Started s, .ok ())) ∧
    (∀ s, PluginAudioProcessor.ensure_processing_started (.Stopped s) =
      (PluginAudioProcessor.Stopped s).start_processing) ∧
    (∀ s, PluginAudioProcessor.ensure_processing_stopped (.Stopped s) =
      (.Stopped s, .ok ())) ∧
    (∀ s, PluginAudioProcessor.ensure_processing_stopped (.Started s) =
      (PluginAudioProcessor.Started s).stop_processing) ∧
    (∀ p : PluginAudioProcessor,
      (p.ensure_processing_started.1).ensure_processing_started.1 =
        p.ensure_processing_started.1) ∧
    (∀ p : PluginAudioProcessor,
      (p.ensure_processing_stopped.1).ensure_processing_stopped.1 =
        p.ensure_processing_stopped.1) := by
  refine ⟨fun s => rfl, fun s => rfl, fun s => rfl, fun s => rfl,
    fun p => ?_, fun p => ?_⟩
  · cases p with
    | Started s => rfl
    | Poisoned => rfl
    | Stopped s =>
      cases hb : s.inner.start_ok <;>
        simp [PluginAudioProcessor.ensure_processing_started,
          PluginAudioProcessor.start_processing,
          StoppedPluginAudioProcessor.start_processing, hb]
  · cases p with
    | Stopped s => rfl
    | Poisoned => rfl
    | Started s => rfl

/-- C7 counterexample: two `MidiSysExEvent`s with the same port index and
identical data bytes (memory holds 7 everywhere; both read 3 bytes, one
at address 0 and one at address 100) compare unequal, because the
`PartialEq` impl compares the buffer pointer, not the bytes — so
"equality iff port index and data bytes match" fails for this concrete
type. -/
theorem sysex_eq_compares_pointer_counterexample :
    (MidiSysExEvent.new 0 0 0 5 0 3).data_bytes (fun _ => 7) =
        (MidiSysExEvent.new 0 0 0 5 100 3).data_bytes (fun _ => 7) ∧
    (MidiSysExEvent.new 0 0 0 5 0 3).port_index =
        (MidiSysExEvent.new 0 0 0 5 100 3).port_index ∧
    (MidiSysExEvent.new 0 0 0 5 0 3).rust_eq
        (MidiSysExEvent.new 0 0 0 5 100 3) = false := by
  decide

/-- C7 amended: `MidiEvent` and `Midi2Event` equality holds iff the data
and port index match; `MidiSysExEvent` equality holds iff port index,
buffer size and buffer pointer match (identical byte content at a
different address compares unequal); all three ignore every header
field. -/
theorem midi_equality_semantic_fields_amended :
    (∀ a b : MidiEvent,
      a.rust_eq b = true ↔ a.data = b.data ∧ a.port_index = b.port_index) ∧
    (∀ a b : Midi2Event,
      a.rust_eq b = true ↔ a.data = b.data ∧ a.port_index = b.port_index) ∧
    (∀ a b : MidiSysExEvent,
      a.rust_eq b = true ↔
        a.port_index = b.port_index ∧ a.size = b.size ∧
          a.buffer = b.buffer) ∧
    (∀ (a b : MidiEvent) (h h' : ClapEventHeader),
      MidiEvent.rust_eq { a with header := h } { b with header := h' } =
        a.rust_eq b) ∧
    (∀ (a b : Midi2Event) (h h' : ClapEventHeader),
      Midi2Event.rust_eq { a with header := h } { b with header := h' } =
        a.rust_eq b) ∧
    (∀ (a b : MidiSysExEvent) (h h' : ClapEventHeader),
      MidiSysExEvent.rust_eq { a with header := h } { b with header := h' } =
        a.rust_eq b) := by
  refine ⟨fun a b => ?_, fun a b => ?_, fun a b => ?_,
    fun a b h h' => rfl, fun a b h h' => rfl, fun a b h h' => rfl⟩ <;>
    simp [MidiEvent.rust_eq, Midi2Event.rust_eq, MidiSysExEvent.rust_eq,
      and_assoc]

/-- The `Timers` collection after registering a 50 ms timer (id 1) and
then a 30 ms timer (id 2), as in the spec's timer scenario. -/
def example_timers : Timers :=
  ((Timers.new.register_new 50).2.register_new 30).2

/-- C8 counterexample: run the tick loop over the schedule 0 ms, 35 ms,
61 ms. Both timers fire at the first tick and the 30 ms timer (id 2)
fires again at 35 ms but not at 61 ms, so it last fired at 35 ms and the
elapsed remainder at 61 ms is 26 ms; the claim predicts a smallest
pending duration of 30 − 26 = 4 ms, but the code reports the flat cached
minimum interval, 30 ms. -/
theorem timers_smallest_duration_constant_counterexample :
    (example_timers.run_ticks [0, 35, 61]).1 = [1, 2, 2] ∧
    (example_timers.run_ticks [0, 35, 61]).2.smallest_duration = some 30 ∧
    ((example_timers.run_ticks [0, 35, 61]).2.smallest_duration ==
      some (30 - (61 - 35))) = false := by
  decide

/-- C8 amended: after registering timers with periods 50 ms (id 1) and
30 ms (id 2), any tick loop makes both timers fire at its very first
tick (so both have fired at least once whenever virtual time has advanced
past 60 ms), and the reported smallest pending duration is always the
smallest registered period, 30 ms, independent of the elapsed remainder
since the 30 ms timer last fired. -/
theorem timers_fire_and_smallest_duration_amended :
    ∀ (first : Nat) (later : List Nat),
      1 ∈ (example_timers.run_ticks (first :: later)).1 ∧
      2 ∈ (example_timers.run_ticks (first :: later)).1 ∧
      (example_timers.run_ticks (first :: later)).2.smallest_duration =
        some 30 := by
  intro first later
  have hfst : (example_timers.run_ticks (first :: later)).1 =
      1 :: 2 :: ((example_timers.tick_all first).2.run_ticks later).1 := rfl
  refine ⟨?_, ?_, ?_⟩
  · rw [hfst]
    exact List.mem_cons_self 1 _
  · rw [hfst]
    exact List.mem_cons_of_mem _ (List.mem_cons_self 2 _)
  · show ((example_timers.tick_all first).2.run_ticks later).2.smallest_duration
        = some 30
    rw [Timers.run_ticks_smallest_duration]
    rfl

/-- C10: `PluginState::load` succeeds exactly when the `load` function
pointer is present and returns `true` (so it errors iff the pointer is
null or the call returns `false`), and every error carries
`saving = false`; dually for `save`, whose errors carry `saving = true`. -/
theorem plugin_state_load_save_error_iff :
    ∀ (s : PluginState) (plugin stream : Nat),
      (s.load plugin stream = .ok () ↔
        ∃ f, s.load_fn = some f ∧ f plugin stream = true) ∧
      (s.load plugin stream = .ok () ∨
        s.load plugin stream = .error ⟨false⟩) ∧
      (s.save plugin stream = .ok () ↔
        ∃ f, s.save_fn = some f ∧ f plugin stream = true) ∧
      (s.save plugin stream = .ok () ∨
        s.save plugin stream = .error ⟨true⟩) := by
  intro s plugin stream
  refine ⟨?_, ?_, ?_, ?_⟩
  · cases h : s.load_fn with
    | none => simp [PluginState.load, h]
    | some f =>
      cases hf : f plugin stream <;> simp [PluginState.load, h, hf]
  · cases h : s.load_fn with
    | none => right; simp [PluginState.load, h]
    | some f =>
      cases hf : f plugin stream
      · right; simp [PluginState.load, h, hf]
      · left; simp [PluginState.load, h, hf]
  · cases h : s.save_fn with
    | none => simp [PluginState.save, h]
    | some f =>
      cases hf : f plugin stream <;> simp [PluginState.save, h, hf]
  · cases h : s.save_fn with
    | none => right; simp [PluginState.save, h]
    | some f =>
      cases hf : f plugin stream
      · right; simp [PluginState.save, h, hf]
      · left; simp [PluginState.save, h, hf]
